import Mathlib

/-!
Shallow embedding of `src/Front/src/static/ocr.js` (class `OCRApplication`),
the browser-side UI controller of an image-upload-and-OCR page.

The DOM state the controller reads and writes is collected in `AppState`:
the selected file (`this.currentFile`), the file input value, the recognize
button (`recognizeBtn.disabled` / `textContent`), the `fileName` label
(text and CSS color), the `fileNameDisplay` label, the `resultText` element
(text and color), whether the upload area shows the preview image, and the
list of `.notification` elements attached to `document.body`, in document
order.

Network effects are made explicit: `recognizeText` is given a response
oracle (`none` = the fetch or the JSON parse threw; `some r` = the parsed
response body) and returns, besides the final state, the list of requests
it issued and the states observable while a request was outstanding.
-/

/-- A browser `File` object as the controller uses it: name, MIME type
    string, size in bytes. -/
structure JsFile where
  name : String
  type : String
  size : Nat
deriving DecidableEq, Repr

/-- The recognize button: its `disabled` property and its label. -/
structure ButtonState where
  disabled : Bool
  text : String
deriving DecidableEq, Repr

/-- A `.notification` element created by `showNotification`: its text and
    its type (`"success"` or `"error"`, part of the CSS class). -/
structure Notification where
  message : String
  ntype : String
deriving DecidableEq, Repr

/-- The DOM/controller state `OCRApplication` reads and writes. -/
structure AppState where
  currentFile : Option JsFile
  fileInputValue : String
  recognizeBtn : ButtonState
  fileNameText : String
  fileNameColor : String
  fileNameDisplayText : String
  resultText : String
  resultColor : String
  uploadAreaPreview : Bool
  notifications : List Notification
deriving DecidableEq, Repr

/-- `allowedTypes` in `handleFileSelect` (ocr.js line 74). -/
def allowedTypes : List String :=
  ["image/png", "image/jpeg", "image/jpg", "image/bmp", "image/tiff"]

/-- The size bound `16 * 1024 * 1024` in `handleFileSelect` (line 81). -/
def maxFileSize : Nat := 16 * 1024 * 1024

/-- Embeds `disableRecognizeButton` (lines 145-147). -/
def disableRecognizeButton (s : AppState) : AppState :=
  { s with recognizeBtn := { s.recognizeBtn with disabled := true } }

/-- Embeds `enableRecognizeButton` (lines 140-143). -/
def enableRecognizeButton (s : AppState) : AppState :=
  { s with recognizeBtn := { disabled := false, text := "Распознать текст" } }

/-- Embeds `restoreDefaultView` (lines 135-138): the upload area content is
    replaced by the default icon, so no preview is shown. -/
def restoreDefaultView (s : AppState) : AppState :=
  { s with uploadAreaPreview := false }

/-- Embeds `resetFileSelection` (lines 127-133), statement by statement. -/
def resetFileSelection (s : AppState) : AppState :=
  let s := { s with currentFile := none }
  let s := { s with fileInputValue := "" }
  let s := disableRecognizeButton s
  let s := { s with fileNameText := "" }
  restoreDefaultView s

/-- Embeds `showError` (lines 121-125): sets the `fileName` label to the
    message in red, then calls `resetFileSelection`. -/
def showError (s : AppState) (message : String) : AppState :=
  let s := { s with fileNameText := message, fileNameColor := "#f44336" }
  resetFileSelection s

/-- Embeds `hideResult` (lines 149-152). -/
def hideResult (s : AppState) : AppState :=
  { s with resultText := "Здесь появится распознанный текст...",
           resultColor := "#666" }

/-- Embeds `showResult` (lines 154-164); the scroll call has no state
    effect modelled here. -/
def showResult (s : AppState) (text filename : String) : AppState :=
  { s with resultText := text, resultColor := "#000",
           fileNameDisplayText := "Файл: " ++ filename }

/-- Embeds `updateFileInfo` (lines 115-119). -/
def updateFileInfo (s : AppState) (filename : String) : AppState :=
  { s with fileNameText := "Выбран файл: " ++ filename,
           fileNameColor := "#4CAF50",
           fileNameDisplayText := "Файл: " ++ filename }

/-- Embeds `displayFilePreview` (lines 93-113), taking the `FileReader`
    `onload` outcome: the upload area content is replaced by the preview
    image. -/
def displayFilePreview (s : AppState) : AppState :=
  { s with uploadAreaPreview := true }

/-- Embeds `showNotification` (lines 262-280): every existing
    `.notification` element is removed, then the new one is appended. -/
def showNotification (s : AppState) (message ntype : String) : AppState :=
  { s with notifications := [⟨message, ntype⟩] }

/-- Embeds the `setTimeout` callback inside `showNotification`
    (lines 275-279): after 4 seconds the notification is removed from the
    document if it is still attached. -/
def notificationTimeout (s : AppState) (n : Notification) : AppState :=
  { s with notifications := s.notifications.erase n }

/-- Embeds `handleFileSelect` (lines 70-91). The argument is `Option`
    because of the `if (!file) return` guard. -/
def handleFileSelect (s : AppState) (file : Option JsFile) : AppState :=
  match file with
  | none => s
  | some file =>
    if file.type ∉ allowedTypes then
      showError s "Пожалуйста, выберите файл изображения (PNG, JPG, BMP, TIFF)"
    else if file.size > maxFileSize then
      showError s "Файл слишком большой. Максимальный размер: 16MB"
    else
      let s := { s with currentFile := some file }
      let s := displayFilePreview s
      let s := updateFileInfo s file.name
      let s := enableRecognizeButton s
      hideResult s

/-- The argument of `setRecognizeButtonState` (lines 203-216). -/
inductive BtnState where
  | loading
  | ready
deriving DecidableEq, Repr

/-- Embeds `setRecognizeButtonState` (lines 203-216). -/
def setRecognizeButtonState (s : AppState) (st : BtnState) : AppState :=
  match st with
  | .loading => { s with recognizeBtn := { disabled := true, text := "Обработка..." } }
  | .ready => { s with recognizeBtn := { disabled := false, text := "Распознать текст" } }

/-- The parsed JSON body of a `/upload` response (ocr.js line 184). -/
structure UploadResponse where
  success : Bool
  recognized_text : String
  filename : String
  error : String
deriving DecidableEq, Repr

/-- A network request issued by the controller. -/
structure UploadRequest where
  url : String
  method : String
  field : String
  file : JsFile
deriving DecidableEq, Repr

/-- One run of `recognizeText`: the requests it issued, the states
    observable while a request was outstanding (at the `await`), and the
    state when the handler returns. -/
structure RecognizeRun where
  requests : List UploadRequest
  inFlight : List AppState
  final : AppState
deriving Repr

/-- Embeds `recognizeText` (lines 166-201). `resp` is the network oracle:
    `none` means the fetch or the `response.json()` parse threw, `some data`
    is the parsed body. The `finally` block runs on every path that issued
    the request. -/
def recognizeText (s : AppState) (resp : Option UploadResponse) : RecognizeRun :=
  match s.currentFile with
  | none =>
      { requests := []
        inFlight := []
        final := showNotification s "Пожалуйста, сначала выберите файл" "error" }
  | some file =>
      let s1 := setRecognizeButtonState s .loading
      let req : UploadRequest :=
        { url := "/upload", method := "POST", field := "file", file := file }
      let s3 :=
        match resp with
        | none =>
            let s2 := showError s1 "Ошибка сети при загрузке файла"
            showNotification s2 "Ошибка сети. Проверьте подключение." "error"
        | some data =>
            if data.success then
              let s2 := showResult s1 data.recognized_text data.filename
              showNotification s2 "Текст успешно распознан!" "success"
            else
              let s2 := showError s1 data.error
              showNotification s2 ("Ошибка: " ++ data.error) "error"
      { requests := [req]
        inFlight := [s1]
        final := setRecognizeButtonState s3 .ready }

/-- Embeds `copyToClipboard` (lines 218-240); `clipboardOk` tells whether
    `navigator.clipboard.writeText` succeeded (`false` takes the
    `execCommand` fallback, which also notifies success). -/
def copyToClipboard (s : AppState) (clipboardOk : Bool) : AppState :=
  if s.resultText = "" ∨ s.resultText = "Здесь появится распознанный текст..." then
    showNotification s "Нет текста для копирования" "error"
  else if clipboardOk then
    showNotification s "Текст скопирован в буфер обмена!" "success"
  else
    showNotification s "Текст скопирован!" "success"

/-- The client-side validity check of `handleFileSelect`: allowed MIME type
    and size at most 16 MiB. -/
def fileValid (f : JsFile) : Prop :=
  f.type ∈ allowedTypes ∧ f.size ≤ maxFileSize

instance (f : JsFile) : Decidable (fileValid f) := by
  unfold fileValid; infer_instance

/-- A file counts as accepted when it is stored as the current file, the
    preview is shown, and the recognize control is enabled. -/
def accepted (s : AppState) (f : JsFile) : Prop :=
  s.currentFile = some f ∧ s.uploadAreaPreview = true ∧
    s.recognizeBtn.disabled = false

instance (s : AppState) (f : JsFile) : Decidable (accepted s f) := by
  unfold accepted; infer_instance

/-- A sample state used to instantiate theorems at concrete inputs: a fresh
    page with nothing selected. -/
def sampleState : AppState :=
  { currentFile := none
    fileInputValue := ""
    recognizeBtn := { disabled := true, text := "Распознать текст" }
    fileNameText := ""
    fileNameColor := "#000"
    fileNameDisplayText := ""
    resultText := "Здесь появится распознанный текст..."
    resultColor := "#666"
    uploadAreaPreview := false
    notifications := [] }

/-- A concrete valid file. -/
def okFile : JsFile := { name := "scan.png", type := "image/png", size := 2048 }

/-- A concrete file with a disallowed MIME type. -/
def badTypeFile : JsFile := { name := "notes.txt", type := "text/plain", size := 1000 }

/-- C1: for every file offered to `handleFileSelect`, the file is accepted
    (stored, previewed, recognize enabled) iff its MIME type is allowed and
    its size is at most 16 MiB; but the rejection does NOT leave an error
    message visible: `showError` sets the message and then calls
    `resetFileSelection`, which clears the `fileName` text again, so after
    rejecting a file with a disallowed type the label text is empty. -/
theorem handleFileSelect_accepts_iff_valid_but_message_erased :
    (∀ (s : AppState) (f : JsFile),
        accepted (handleFileSelect s (some f)) f ↔ fileValid f) ∧
    (handleFileSelect sampleState (some badTypeFile)).currentFile = none ∧
    (handleFileSelect sampleState (some badTypeFile)).fileNameText = "" := by
  refine ⟨?_, by decide, by decide⟩
  intro s f
  by_cases hty : f.type ∈ allowedTypes
  · by_cases hsz : f.size ≤ maxFileSize
    · simp [handleFileSelect, hty, Nat.not_lt.mpr hsz, accepted, fileValid, hsz,
        hideResult, enableRecognizeButton, updateFileInfo, displayFilePreview]
    · simp [handleFileSelect, hty, Nat.not_le.mp hsz, accepted, fileValid, hsz,
        showError, resetFileSelection, disableRecognizeButton, restoreDefaultView]
  · simp [handleFileSelect, hty, accepted, fileValid,
      showError, resetFileSelection, disableRecognizeButton, restoreDefaultView]

/-- C2: a `success:false` response with error string `"boom"` is NOT
    displayed verbatim: `showError` passes the string to the `fileName`
    label but its own call to `resetFileSelection` clears that label again,
    so the handler ends with an empty label text; the only surviving display
    is the notification, whose text is the prefixed `"Ошибка: boom"`, not
    the server string unmodified. -/
theorem server_error_not_displayed_verbatim :
    (recognizeText (handleFileSelect sampleState (some okFile))
        (some { success := false, recognized_text := "", filename := "",
                error := "boom" })).final.fileNameText = "" ∧
    (recognizeText (handleFileSelect sampleState (some okFile))
        (some { success := false, recognized_text := "", filename := "",
                error := "boom" })).final.notifications =
      [{ message := "Ошибка: boom", ntype := "error" }] ∧
    "Ошибка: boom" ≠ "boom" := by
  refine ⟨by decide, by decide, by decide⟩

/-- C3: a file failing the client-side validation is rejected before any
    network traffic: `handleFileSelect` issues no request at all and leaves
    `currentFile` empty, a subsequent `recognizeText` from that state issues
    no request either, and every request `recognizeText` ever issues carries
    the state's current file — so a rejected file is never uploaded. -/
theorem invalid_file_never_uploaded (s : AppState) (f : JsFile)
    (h : ¬ fileValid f) (resp : Option UploadResponse) :
    (handleFileSelect s (some f)).currentFile = none ∧
    (recognizeText (handleFileSelect s (some f)) resp).requests = [] ∧
    ∀ (t : AppState) (r : Option UploadResponse) (q : UploadRequest),
        q ∈ (recognizeText t r).requests → t.currentFile = some q.file := by
  have hcf : (handleFileSelect s (some f)).currentFile = none := by
    by_cases hty : f.type ∈ allowedTypes
    · have hsz : ¬ f.size ≤ maxFileSize := fun hsz => h ⟨hty, hsz⟩
      simp [handleFileSelect, hty, Nat.not_le.mp hsz,
        showError, resetFileSelection, disableRecognizeButton, restoreDefaultView]
    · simp [handleFileSelect, hty,
        showError, resetFileSelection, disableRecognizeButton, restoreDefaultView]
  refine ⟨hcf, ?_, ?_⟩
  · simp [recognizeText, hcf]
  · intro t r q hq
    rcases ht : t.currentFile with _ | g
    · rw [recognizeText, ht] at hq
      simp at hq
    · rw [recognizeText, ht] at hq
      simp at hq
      simp [hq, ht]

/-- Instantiates `invalid_file_never_uploaded` at a fresh page and a
    `text/plain` file. -/
theorem invalid_file_never_uploaded_witness :
    ¬ fileValid badTypeFile ∧
    (handleFileSelect sampleState (some badTypeFile)).currentFile = none ∧
    (recognizeText (handleFileSelect sampleState (some badTypeFile)) none).requests = [] :=
  ⟨by decide,
    (invalid_file_never_uploaded sampleState badTypeFile (by decide) none).1,
    (invalid_file_never_uploaded sampleState badTypeFile (by decide) none).2.1⟩

/-- C4: when a file is selected, every state observable while the upload
    request is outstanding has the recognize button disabled, and once the
    handler finishes — response parsed, server failure, or thrown fetch —
    the `finally` block has re-enabled it. -/
theorem recognize_button_disabled_while_outstanding (s : AppState) (f : JsFile)
    (h : s.currentFile = some f) (resp : Option UploadResponse) :
    (∀ t ∈ (recognizeText s resp).inFlight, t.recognizeBtn.disabled = true) ∧
    (recognizeText s resp).final.recognizeBtn.disabled = false := by
  constructor
  · intro t ht
    rw [recognizeText, h] at ht
    simp at ht
    rw [ht]
    simp [setRecognizeButtonState]
  · rw [recognizeText, h]
    simp [setRecognizeButtonState]

/-- Instantiates `recognize_button_disabled_while_outstanding` after
    selecting a valid file, for a thrown fetch. -/
theorem recognize_button_disabled_while_outstanding_witness :
    (handleFileSelect sampleState (some okFile)).currentFile = some okFile ∧
    (recognizeText (handleFileSelect sampleState (some okFile))
        none).final.recognizeBtn.disabled = false :=
  ⟨by decide,
    (recognize_button_disabled_while_outstanding
        (handleFileSelect sampleState (some okFile)) okFile (by decide) none).2⟩

/-- C5 counterexample: "exactly one notification visible at every point"
    fails — the 4-second `setTimeout` callback in `showNotification`
    removes the notification, reaching a point of execution with zero
    notifications visible. -/
theorem notification_count_zero_reachable :
    ((notificationTimeout
        (showNotification sampleState "Текст успешно распознан!" "success")
        { message := "Текст успешно распознан!", ntype := "success" }).notifications).length
      = 0 := by decide

/-- C5 amended: at most one notification is ever visible — whenever
    `showNotification` runs it removes every existing notification before
    appending the new one, so immediately after it exactly one is visible
    and two are never visible simultaneously; the timeout callback only
    removes, and no other operation adds notifications. -/
theorem at_most_one_notification :
    (∀ (s : AppState) (m t : String),
        (showNotification s m t).notifications = [{ message := m, ntype := t }]) ∧
    (∀ (s : AppState) (n : Notification),
        (notificationTimeout s n).notifications.length ≤ s.notifications.length) ∧
    (∀ (s : AppState) (f : Option JsFile),
        (handleFileSelect s f).notifications = s.notifications) ∧
    (∀ (s : AppState) (resp : Option UploadResponse),
        (recognizeText s resp).final.notifications.length = 1) ∧
    (∀ (s : AppState) (st : BtnState),
        (setRecognizeButtonState s st).notifications = s.notifications) ∧
    (∀ (s : AppState) (resp : Option UploadResponse),
        (recognizeText s resp).inFlight = [] ∨
        (recognizeText s resp).inFlight = [setRecognizeButtonState s BtnState.loading]) ∧
    (∀ (s : AppState) (b : Bool),
        (copyToClipboard s b).notifications.length = 1) := by
  refine ⟨?_, ?_, ?_, ?_, ?_, ?_, ?_⟩
  · intro s m t
    simp [showNotification]
  · intro s n
    simp [notificationTimeout]
    exact List.length_erase_le _ _
  · intro s f
    rcases f with _ | f
    · rfl
    · by_cases hty : f.type ∈ allowedTypes
      · by_cases hsz : f.size ≤ maxFileSize
        · simp [handleFileSelect, hty, Nat.not_lt.mpr hsz, hideResult,
            enableRecognizeButton, updateFileInfo, displayFilePreview]
        · simp [handleFileSelect, hty, Nat.not_le.mp hsz, showError,
            resetFileSelection, disableRecognizeButton, restoreDefaultView]
      · simp [handleFileSelect, hty, showError, resetFileSelection,
          disableRecognizeButton, restoreDefaultView]
  · intro s resp
    rcases hcf : s.currentFile with _ | f
    · rw [recognizeText, hcf]
      simp [showNotification]
    · rw [recognizeText, hcf]
      rcases resp with _ | data
      · simp [setRecognizeButtonState, showNotification, showError,
          resetFileSelection, disableRecognizeButton, restoreDefaultView]
      · by_cases hs : data.success
        · simp [hs, setRecognizeButtonState, showNotification, showResult]
        · simp [hs, setRecognizeButtonState, showNotification, showError,
            resetFileSelection, disableRecognizeButton, restoreDefaultView]
  · intro s st
    cases st <;> simp [setRecognizeButtonState]
  · intro s resp
    rcases hcf : s.currentFile with _ | f
    · left
      rw [recognizeText, hcf]
    · right
      rw [recognizeText, hcf]
  · intro s b
    by_cases hempty : s.resultText = "" ∨ s.resultText = "Здесь появится распознанный текст..."
    · simp [copyToClipboard, hempty, showNotification]
    · cases b <;> simp [copyToClipboard, hempty, showNotification]

/-- C6: the controller holds at most one selected file (`currentFile` is a
    single optional field) and the state follows the claimed lifecycle —
    set to the file on selection of a valid file (so replaced on a new
    valid selection), left untouched by the null-guard, cleared by
    `resetFileSelection` and every `showError` path, cleared by every
    failing recognition, kept across a successful recognition, and not
    touched by notifications or clipboard copying. -/
theorem currentFile_lifecycle :
    (∀ (s : AppState) (f : JsFile), fileValid f →
        (handleFileSelect s (some f)).currentFile = some f) ∧
    (∀ (s : AppState) (f : JsFile), ¬ fileValid f →
        (handleFileSelect s (some f)).currentFile = none) ∧
    (∀ s : AppState, (handleFileSelect s none).currentFile = s.currentFile) ∧
    (∀ s : AppState, (resetFileSelection s).currentFile = none) ∧
    (∀ (s : AppState) (m : String), (showError s m).currentFile = none) ∧
    (∀ (s : AppState) (resp : Option UploadResponse), s.currentFile = none →
        (recognizeText s resp).final.currentFile = none) ∧
    (∀ (s : AppState) (f : JsFile) (r : UploadResponse),
        s.currentFile = some f → r.success = true →
        (recognizeText s (some r)).final.currentFile = some f) ∧
    (∀ (s : AppState) (f : JsFile) (r : UploadResponse),
        s.currentFile = some f → r.success = false →
        (recognizeText s (some r)).final.currentFile = none) ∧
    (∀ (s : AppState) (f : JsFile), s.currentFile = some f →
        (recognizeText s none).final.currentFile = none) ∧
    (∀ (s : AppState) (m t : String),
        (showNotification s m t).currentFile = s.currentFile) ∧
    (∀ (s : AppState) (b : Bool),
        (copyToClipboard s b).currentFile = s.currentFile) := by
  refine ⟨?_, ?_, ?_, ?_, ?_, ?_, ?_, ?_, ?_, ?_, ?_⟩
  · intro s f hv
    obtain ⟨hty, hsz⟩ := hv
    simp [handleFileSelect, hty, Nat.not_lt.mpr hsz, hideResult,
      enableRecognizeButton, updateFileInfo, displayFilePreview]
  · intro s f hv
    by_cases hty : f.type ∈ allowedTypes
    · have hsz : ¬ f.size ≤ maxFileSize := fun hsz => hv ⟨hty, hsz⟩
      simp [handleFileSelect, hty, Nat.not_le.mp hsz, showError,
        resetFileSelection, disableRecognizeButton, restoreDefaultView]
    · simp [handleFileSelect, hty, showError, resetFileSelection,
        disableRecognizeButton, restoreDefaultView]
  · intro s
    rfl
  · intro s
    simp [resetFileSelection, disableRecognizeButton, restoreDefaultView]
  · intro s m
    simp [showError, resetFileSelection, disableRecognizeButton, restoreDefaultView]
  · intro s resp h
    rw [recognizeText, h]
    simpa [showNotification] using h
  · intro s f r h hs
    rw [recognizeText, h]
    simp [hs, setRecognizeButtonState, showNotification, showResult, h]
  · intro s f r h hs
    rw [recognizeText, h]
    simp [hs, setRecognizeButtonState, showNotification, showError,
      resetFileSelection, disableRecognizeButton, restoreDefaultView]
  · intro s f h
    rw [recognizeText, h]
    simp [setRecognizeButtonState, showNotification, showError,
      resetFileSelection, disableRecognizeButton, restoreDefaultView]
  · intro s m t
    rfl
  · intro s b
    by_cases hempty : s.resultText = "" ∨ s.resultText = "Здесь появится распознанный текст..."
    · simp [copyToClipboard, hempty, showNotification]
    · cases b <;> simp [copyToClipboard, hempty, showNotification]

/-- Instantiates `currentFile_lifecycle`: selecting a valid PNG on a fresh
    page stores it as the current file. -/
theorem currentFile_lifecycle_witness :
    fileValid okFile ∧
    (handleFileSelect sampleState (some okFile)).currentFile = some okFile :=
  ⟨by decide, currentFile_lifecycle.1 sampleState okFile (by decide)⟩

/-- C7: the flow for a valid file runs in the claimed order — validation
    passes (a file with a disallowed type is rejected whatever its size,
    and an oversized file is rejected), the preview is shown and the file
    stored, no request is made until `recognizeText`, which issues exactly
    the multipart POST of field `file` to `/upload`, and the final display
    is the returned `recognized_text` on success or an error notification
    on server failure or thrown fetch. -/
theorem upload_flow_order (s : AppState) (f : JsFile) (h : fileValid f) :
    (handleFileSelect s (some f)).currentFile = some f ∧
    (handleFileSelect s (some f)).uploadAreaPreview = true ∧
    (∀ resp : Option UploadResponse,
        (recognizeText (handleFileSelect s (some f)) resp).requests =
          [{ url := "/upload", method := "POST", field := "file", file := f }]) ∧
    (∀ r : UploadResponse, r.success = true →
        (recognizeText (handleFileSelect s (some f)) (some r)).final.resultText =
          r.recognized_text) ∧
    (∀ r : UploadResponse, r.success = false →
        (recognizeText (handleFileSelect s (some f)) (some r)).final.notifications =
          [{ message := "Ошибка: " ++ r.error, ntype := "error" }]) ∧
    ((recognizeText (handleFileSelect s (some f)) none).final.notifications =
      [{ message := "Ошибка сети. Проверьте подключение.", ntype := "error" }]) ∧
    (∀ g : JsFile, g.type ∉ allowedTypes →
        (handleFileSelect s (some g)).currentFile = none) ∧
    (∀ g : JsFile, g.size > maxFileSize →
        (handleFileSelect s (some g)).currentFile = none) := by
  obtain ⟨hty, hsz⟩ := h
  have hsel : (handleFileSelect s (some f)).currentFile = some f := by
    simp [handleFileSelect, hty, Nat.not_lt.mpr hsz, hideResult,
      enableRecognizeButton, updateFileInfo, displayFilePreview]
  refine ⟨hsel, ?_, ?_, ?_, ?_, ?_, ?_, ?_⟩
  · simp [handleFileSelect, hty, Nat.not_lt.mpr hsz, hideResult,
      enableRecognizeButton, updateFileInfo, displayFilePreview]
  · intro resp
    rw [recognizeText, hsel]
  · intro r hs
    rw [recognizeText, hsel]
    simp [hs, setRecognizeButtonState, showNotification, showResult]
  · intro r hs
    rw [recognizeText, hsel]
    simp [hs, setRecognizeButtonState, showNotification, showError,
      resetFileSelection, disableRecognizeButton, restoreDefaultView]
  · rw [recognizeText, hsel]
    simp [setRecognizeButtonState, showNotification, showError,
      resetFileSelection, disableRecognizeButton, restoreDefaultView]
  · intro g hg
    simp [handleFileSelect, hg, showError, resetFileSelection,
      disableRecognizeButton, restoreDefaultView]
  · intro g hg
    by_cases hgty : g.type ∈ allowedTypes
    · simp [handleFileSelect, hgty, hg, showError, resetFileSelection,
        disableRecognizeButton, restoreDefaultView]
    · simp [handleFileSelect, hgty, showError, resetFileSelection,
        disableRecognizeButton, restoreDefaultView]

/-- Instantiates `upload_flow_order`: a valid PNG on a fresh page is stored
    as the current file. -/
theorem upload_flow_order_witness :
    fileValid okFile ∧
    (handleFileSelect sampleState (some okFile)).currentFile = some okFile :=
  ⟨by decide, (upload_flow_order sampleState okFile (by decide)).1⟩

/-- C8: when the fetch or the JSON parse throws, the generic network-error
    notification is shown, and no retry happens — every invocation with a
    selected file issues exactly one POST to `/upload`, and no invocation
    ever issues more than one request. -/
theorem network_failure_generic_single_request (s : AppState) (f : JsFile)
    (h : s.currentFile = some f) :
    (recognizeText s none).requests =
      [{ url := "/upload", method := "POST", field := "file", file := f }] ∧
    (recognizeText s none).final.notifications =
      [{ message := "Ошибка сети. Проверьте подключение.", ntype := "error" }] ∧
    (∀ resp : Option UploadResponse, (recognizeText s resp).requests.length = 1) ∧
    (∀ (t : AppState) (resp : Option UploadResponse),
        (recognizeText t resp).requests.length ≤ 1) := by
  refine ⟨?_, ?_, ?_, ?_⟩
  · rw [recognizeText, h]
  · rw [recognizeText, h]
    simp [setRecognizeButtonState, showNotification, showError,
      resetFileSelection, disableRecognizeButton, restoreDefaultView]
  · intro resp
    rw [recognizeText, h]
    simp
  · intro t resp
    rcases ht : t.currentFile with _ | g
    · rw [recognizeText, ht]
      simp
    · rw [recognizeText, ht]
      simp

/-- Instantiates `network_failure_generic_single_request` after selecting a
    valid file: the thrown fetch leaves exactly the generic notification. -/
theorem network_failure_generic_single_request_witness :
    (handleFileSelect sampleState (some okFile)).currentFile = some okFile ∧
    (recognizeText (handleFileSelect sampleState (some okFile)) none).final.notifications =
      [{ message := "Ошибка сети. Проверьте подключение.", ntype := "error" }] :=
  ⟨by decide,
    (network_failure_generic_single_request
        (handleFileSelect sampleState (some okFile)) okFile (by decide)).2.1⟩

/-- C9: `recognizeText` with no selected file shows the error notification,
    performs no network request, and leaves the current file, the result
    text, the file-name displays and the button untouched. -/
theorem recognize_without_file_noop (s : AppState) (h : s.currentFile = none)
    (resp : Option UploadResponse) :
    (recognizeText s resp).requests = [] ∧
    (recognizeText s resp).final.notifications =
      [{ message := "Пожалуйста, сначала выберите файл", ntype := "error" }] ∧
    (recognizeText s resp).final.currentFile = none ∧
    (recognizeText s resp).final.resultText = s.resultText ∧
    (recognizeText s resp).final.fileNameDisplayText = s.fileNameDisplayText ∧
    (recognizeText s resp).final.fileNameText = s.fileNameText ∧
    (recognizeText s resp).final.recognizeBtn = s.recognizeBtn := by
  rw [recognizeText, h]
  refine ⟨rfl, rfl, ?_, rfl, rfl, rfl, rfl⟩
  simpa [showNotification] using h

/-- Instantiates `recognize_without_file_noop` at a fresh page. -/
theorem recognize_without_file_noop_witness :
    sampleState.currentFile = none ∧
    (recognizeText sampleState none).requests = [] :=
  ⟨by decide, (recognize_without_file_noop sampleState (by decide) none).1⟩

/-- C10: after a failed recognition — `success:false` or a thrown fetch —
    the error path has cleared the selected file while the `finally` block
    has re-enabled the recognize button, so the button is enabled with no
    file selected. -/
theorem enabled_button_with_no_file_reachable (s : AppState) (f : JsFile)
    (h : s.currentFile = some f) (r : UploadResponse) (hr : r.success = false) :
    ((recognizeText s (some r)).final.currentFile = none ∧
     (recognizeText s (some r)).final.recognizeBtn.disabled = false) ∧
    ((recognizeText s none).final.currentFile = none ∧
     (recognizeText s none).final.recognizeBtn.disabled = false) := by
  constructor
  · rw [recognizeText, h]
    constructor
    · simp [hr, setRecognizeButtonState, showNotification, showError,
        resetFileSelection, disableRecognizeButton, restoreDefaultView]
    · simp [setRecognizeButtonState]
  · rw [recognizeText, h]
    constructor
    · simp [setRecognizeButtonState, showNotification, showError,
        resetFileSelection, disableRecognizeButton, restoreDefaultView]
    · simp [setRecognizeButtonState]

/-- Instantiates `enabled_button_with_no_file_reachable` after selecting a
    valid file and getting a `success:false` response. -/
theorem enabled_button_with_no_file_reachable_witness :
    (handleFileSelect sampleState (some okFile)).currentFile = some okFile ∧
    (recognizeText (handleFileSelect sampleState (some okFile))
        (some { success := false, recognized_text := "", filename := "",
                error := "no text found" })).final.currentFile = none ∧
    (recognizeText (handleFileSelect sampleState (some okFile))
        (some { success := false, recognized_text := "", filename := "",
                error := "no text found" })).final.recognizeBtn.disabled = false :=
  ⟨by decide,
    ((enabled_button_with_no_file_reachable
        (handleFileSelect sampleState (some okFile)) okFile (by decide)
        { success := false, recognized_text := "", filename := "",
          error := "no text found" } (by decide)).1).1,
    ((enabled_button_with_no_file_reachable
        (handleFileSelect sampleState (some okFile)) okFile (by decide)
        { success := false, recognized_text := "", filename := "",
          error := "no text found" } (by decide)).1).2⟩
